import Mathlib

/-!
Verification of the pyinfra server module (`pyinfra/modules/server.py`)
against its specification.

The module's operations are pure decision functions from desired-state
parameters and observed facts to an ordered command plan.  We embed each
operation as a Lean function.  Python exceptions raised during plan
computation are modelled with `Except`: the source can raise `TypeError`
(subscripting `None`, or calling the Python 2 builtin `file` with keyword
arguments it does not accept), so `user` returns `Except PyErr (List Cmd)`.

Commands appended by `user` are modelled as a structured type `Cmd` with a
`render` function reproducing the exact format strings of the source; the
raw operations (`wait`, `shell`, `script`) keep plain strings as in the
source.  The sub-operations `files.directory`, `files.file` and `files.put`
live in a module that is not part of the staged sources, so they are
modelled from the spec (see their doc comments).
-/

/-- Python `str(x)` as used by `'...'.format(...)` on an optional string:
`None` formats as the four characters `None`. -/
def pyStr : Option String → String
  | none => "None"
  | some s => s

/-- Python `format` of an optional int argument (the `wait` port). -/
def pyStrNat : Option Nat → String
  | none => "None"
  | some n => toString n

/-- Python `dict.get` over an association list (insertion order kept). -/
def alookup {α : Type} : List (String × α) → String → Option α
  | [], _ => none
  | (k, v) :: rest, n => if k = n then some v else alookup rest n

/-! ## SHA-1 (hashlib.sha1), over lists of bytes as natural numbers < 256 -/

/-- Truncation to a 32-bit word. -/
def w32 (n : Nat) : Nat := n % 4294967296

/-- Left rotation of a 32-bit word by `b` bits. -/
def rotl (b n : Nat) : Nat := (n * 2 ^ b + n / 2 ^ (32 - b)) % 4294967296

/-- The SHA-1 round function for round `t`. -/
def sha1F (t b c d : Nat) : Nat :=
  if t < 20 then Nat.lor (Nat.land b c) (Nat.land (Nat.xor b 4294967295) d)
  else if t < 40 then Nat.xor (Nat.xor b c) d
  else if t < 60 then Nat.lor (Nat.lor (Nat.land b c) (Nat.land b d)) (Nat.land c d)
  else Nat.xor (Nat.xor b c) d

/-- The SHA-1 round constant for round `t`. -/
def sha1K (t : Nat) : Nat :=
  if t < 20 then 1518500249
  else if t < 40 then 1859775393
  else if t < 60 then 2400959708
  else 3395469782

/-- Big-endian byte decomposition, `k` bytes. -/
def beBytes (k n : Nat) : List Nat :=
  (List.range k).map (fun i => n / 2 ^ (8 * (k - 1 - i)) % 256)

/-- SHA-1 padding: append `0x80`, zero bytes to 56 mod 64, then the
bit length as 8 big-endian bytes. -/
def sha1Pad (msg : List Nat) : List Nat :=
  msg ++ [128] ++ List.replicate ((119 - msg.length % 64) % 64) 0
      ++ beBytes 8 (8 * msg.length)

/-- Big-endian 32-bit words from bytes. -/
def toWords : List Nat → List Nat
  | a :: b :: c :: d :: rest => (a * 16777216 + b * 65536 + c * 256 + d) :: toWords rest
  | _ => []

/-- Split a byte list into 64-byte blocks; the fuel (at least the number of
blocks) keeps the recursion structural so that terms reduce. -/
def chunksAux : Nat → List Nat → List (List Nat)
  | 0, _ => []
  | _, [] => []
  | fuel + 1, x :: xs => (x :: xs).take 64 :: chunksAux fuel (xs.drop 63)

/-- Split a byte list into 64-byte blocks. -/
def chunks64 (l : List Nat) : List (List Nat) := chunksAux l.length l

/-- Message-schedule extension: `rev` holds the words produced so far, most
recent first; each step prepends `rotl 1 (w3 xor w8 xor w14 xor w16)`. -/
def sha1Extend (rev : List Nat) : Nat → List Nat
  | 0 => rev
  | k + 1 =>
    let w := rotl 1 (Nat.xor (Nat.xor (rev.getD 2 0) (rev.getD 7 0))
                             (Nat.xor (rev.getD 13 0) (rev.getD 15 0)))
    sha1Extend (w :: rev) k

/-- The five 32-bit words of SHA-1 state. -/
structure SHAState where
  a : Nat
  b : Nat
  c : Nat
  d : Nat
  e : Nat
deriving DecidableEq, Repr

/-- One SHA-1 compression round on (round index, schedule word). -/
def sha1Round (st : SHAState) (tw : Nat × Nat) : SHAState :=
  let temp := w32 (rotl 5 st.a + sha1F tw.1 st.b st.c st.d + st.e + sha1K tw.1 + tw.2)
  ⟨temp, st.a, rotl 30 st.b, st.c, st.d⟩

/-- Process one 64-byte block. -/
def sha1Block (h : SHAState) (block : List Nat) : SHAState :=
  let ws := (sha1Extend (toWords block).reverse 64).reverse
  let st := ((List.range 80).zip ws).foldl sha1Round h
  ⟨w32 (h.a + st.a), w32 (h.b + st.b), w32 (h.c + st.c), w32 (h.d + st.d),
   w32 (h.e + st.e)⟩

/-- SHA-1 initial state. -/
def sha1Init : SHAState := ⟨1732584193, 4023233417, 2562383102, 271733878, 3285377520⟩

/-- SHA-1 of a byte list: the final five-word state. -/
def sha1Digest (msg : List Nat) : SHAState :=
  (chunks64 (sha1Pad msg)).foldl sha1Block sha1Init

/-- Lowercase hex rendering of a 32-bit word, 8 digits. -/
def hex8 (n : Nat) : String :=
  String.mk ((List.range 8).map fun i =>
    "0123456789abcdef".data.getD (n / 2 ^ (4 * (7 - i)) % 16) (Char.ofNat 48))

/-- `hashlib.sha1(...).hexdigest()`: 40 lowercase hex characters. -/
def sha1Hex (msg : List Nat) : String :=
  let h := sha1Digest msg
  hex8 h.a ++ hex8 h.b ++ hex8 h.c ++ hex8 h.d ++ hex8 h.e

/-- The bytes of a string (the Python 2 `str` passed to `hash_.update`). -/
def strBytes (s : String) : List Nat :=
  s.toUTF8.toList.map (fun b => b.toNat)

/-! ## The raw operations: `wait`, `shell`, `script` -/

/-- The polling template before the first port insertion (source lines 31-33). -/
def waitSegA : String :=
  "\n        if [ $(which nc) ]; then\n            while ! nc -q 1 localhost "

/-- The template between the two port insertions (source lines 33-35). -/
def waitSegB : String :=
  " < /dev/null; do sleep 5; done\n        elif [ $(which timeout) ] && [ $(which bash) ]; then\n            while ! timeout 1 bash -c \"echo > /dev/tcp/localhost/"

/-- The template after the second port insertion (source lines 35-40). -/
def waitSegC : String :=
  "\"; do sleep 5; done\n        else\n            echo \"No nc or timeout/bash!\"\n            exit 1\n        fi\n    "

/-- `wait(port=None)`: one synthetic polling command, the triple-quoted
template with the port formatted in at both `\x7b0\x7d` slots. -/
def wait (port : Option Nat) : List String :=
  [waitSegA ++ pyStrNat port ++ waitSegB ++ pyStrNat port ++ waitSegC]

/-- `shell(*commands)`: `return list(commands)`. -/
def shell (commands : List String) : List String :=
  commands

/-- Modelled from the spec: `files.put` is in the `files` module, which is
not among the staged sources; §4.4 calls its output the upload-to-temp-path
command(s).  We model it as one upload command for the local file to the
remote path. -/
def files.put (filename temp_file : String) : List String :=
  ["upload " ++ filename ++ " " ++ temp_file]

/-- `script(filename)`: hash the filename with SHA-1, target
`/tmp/<hexdigest>`, then upload, `chmod +x`, and invoke that path. -/
def script (filename : String) : List String :=
  let temp_file := "/tmp/" ++ sha1Hex (strBytes filename)
  files.put filename temp_file ++ ["chmod +x " ++ temp_file, temp_file]

/-- The content-addressed remote path `script` targets for a filename
(source lines 54-56). -/
def scriptTempFile (filename : String) : String :=
  "/tmp/" ++ sha1Hex (strBytes filename)

/-! ## The `user` operation: data model -/

/-- An observed user record of the `users` fact: the mapping value for one
username (spec §2: "mapping of usernames to \x7bhome, shell\x7d records").
A field Python would hold as `None` is `none`. -/
structure URec where
  home : Option String
  shell : Option String
deriving DecidableEq, Repr

/-- An observed directory record, for the spec-modelled `files.directory`
sub-operation (spec §4.3: existence plus owner/group/mode fields). -/
structure DirRec where
  owner : Option String
  group : Option String
  mode : Option String
deriving DecidableEq, Repr

/-- The facts a `user` reconciliation run reads: the `users` fact
(`host.users`, `none` when the fact is falsy so that `host.users or \x7b\x7d`
yields the empty mapping) and the directory facts the spec-modelled
`files.directory` sub-operation consults. -/
structure Facts where
  users : Option (List (String × URec))
  dirs : List (String × DirRec)

/-- A Python exception escaping plan computation. -/
inductive PyErr where
  | typeError (msg : String)
deriving DecidableEq, Repr

/-- A command the `user` operation can append, one constructor per format
string of the source (and of the spec-modelled `files` sub-operations);
`render` reproduces the exact command text. -/
inductive Cmd where
  | userdel (name : String)
  | useradd (home shell : Option String) (name : String)
  | usermodHome (home : Option String) (name : String)
  | usermodShell (shell : Option String) (name : String)
  | appendKey (filename key : String)
  | mkdirp (path : String) (owner group mode : Option String)
  | chownOwner (path : String) (owner : Option String)
  | chownGroup (path : String) (group : Option String)
  | chmodMode (path : String) (mode : Option String)
deriving DecidableEq, Repr

/-- The exact command text: lines 80, 86, 92, 96 and 128 of the source for
the first five constructors; the `files` sub-operation renders are
spec-modelled. -/
def Cmd.render : Cmd → String
  | userdel n => "userdel " ++ n
  | useradd h s n => "useradd -d " ++ pyStr h ++ " -s " ++ pyStr s ++ " " ++ n
  | usermodHome h n => "usermod -d " ++ pyStr h ++ " " ++ n
  | usermodShell s n => "usermod -s " ++ pyStr s ++ " " ++ n
  | appendKey f k => "cat " ++ f ++ " | grep \"" ++ k ++ "\" || echo \"" ++ k ++ "\" >> " ++ f
  | mkdirp p _ _ _ => "mkdir -p " ++ p
  | chownOwner p o => "chown " ++ pyStr o ++ " " ++ p
  | chownGroup p g => "chgrp " ++ pyStr g ++ " " ++ p
  | chmodMode p m => "chmod " ++ pyStr m ++ " " ++ p

/-- Modelled from the spec: `files.directory` is in the `files` module,
which is not among the staged sources (only its caller is).  Spec §4.3:
the same three-partition shape over existence and owner/group/mode —
desired-and-absent creates (creation sets all fields atomically),
present-but-divergent emits one modification command per divergent
explicitly-set field, and unset fields are never touched. -/
def files.directory (dirs : List (String × DirRec)) (path : String)
    (owner group mode : Option String) : List Cmd :=
  match alookup dirs path with
  | none => [Cmd.mkdirp path owner group mode]
  | some d =>
    (if owner ≠ none ∧ d.owner ≠ owner then [Cmd.chownOwner path owner] else [])
      ++ (if group ≠ none ∧ d.group ≠ group then [Cmd.chownGroup path group] else [])
      ++ (if mode ≠ none ∧ d.mode ≠ mode then [Cmd.chmodMode path mode] else [])

/-- `user(name, present=True, home=None, shell=None, public_keys=None)`,
lines 66-130 of the source.  Where the Python raises, the result is
`Except.error`:

* when `present` is falsy and the lookup misses, control reaches the
  `else` branch of line 89 and `user['home']` subscripts `None`
  (`TypeError`), because line 84's guard only catches `present and
  user is None`;
* when `public_keys` is not `None`, line 120 calls the Python 2 builtin
  `file` (the `files` module is imported as `files`, so the bare name
  `file` is the builtin), and `file(filename, user=..., group=...,
  mode='600')` raises `TypeError: user is an invalid keyword argument` —
  so the authorized_keys ensure-commands and the per-key append commands
  of lines 120-128 are never returned. -/
def user (facts : Facts) (name : String) (present : Bool)
    (home shell : Option String) (public_keys : Option (List String)) :
    Except PyErr (List Cmd) :=
  let users := facts.users.getD []
  let u := alookup users name
  if ¬ present = true ∧ u.isSome then
    Except.ok [Cmd.userdel name]
  else
    let base : Except PyErr (List Cmd) :=
      if present = true ∧ u = none then
        Except.ok [Cmd.useradd home shell name]
      else
        match u with
        | none => Except.error (PyErr.typeError "NoneType object has no attribute getitem")
        | some r =>
          Except.ok ((if r.home ≠ home then [Cmd.usermodHome home name] else [])
            ++ (if r.shell ≠ shell then [Cmd.usermodShell shell name] else []))
    match base with
    | Except.error e => Except.error e
    | Except.ok cmds =>
      let cmds := cmds ++ files.directory facts.dirs (pyStr home) (some name) (some name) none
      match public_keys with
      | none => Except.ok cmds
      | some _keys =>
        let _sshDir := files.directory facts.dirs (pyStr home ++ "/.ssh")
          (some name) (some name) (some "700")
        Except.error (PyErr.typeError "user is an invalid keyword argument for this function")

/-! ## Helper lemmas -/

/-- Substring occurrence, on the character lists of the strings. -/
def hasSub (needle hay : String) : Prop := needle.data <:+: hay.data

instance (n h : String) : Decidable (hasSub n h) := List.decidableInfix _ _

theorem hasSub_appendL {n : String} (p q : String) (h : hasSub n p) :
    hasSub n (p ++ q) := by
  unfold hasSub at *
  rw [String.data_append]
  exact h.trans (List.prefix_append _ _).isInfix

theorem hasSub_appendR {n : String} (p q : String) (h : hasSub n q) :
    hasSub n (p ++ q) := by
  unfold hasSub at *
  rw [String.data_append]
  exact h.trans (List.suffix_append _ _).isInfix

/-- The spec-modelled directory sub-operation never emits a home
modification command. -/
theorem directory_no_usermodHome (dirs : List (String × DirRec)) (path : String)
    (o g m : Option String) (h : Option String) (n : String) :
    Cmd.usermodHome h n ∉ files.directory dirs path o g m := by
  unfold files.directory
  cases alookup dirs path with
  | none => simp
  | some d =>
    simp only [List.mem_append, not_or]
    refine ⟨⟨?_, ?_⟩, ?_⟩ <;> (split <;> simp)

/-- The spec-modelled directory sub-operation never emits a shell
modification command. -/
theorem directory_no_usermodShell (dirs : List (String × DirRec)) (path : String)
    (o g m : Option String) (s : Option String) (n : String) :
    Cmd.usermodShell s n ∉ files.directory dirs path o g m := by
  unfold files.directory
  cases alookup dirs path with
  | none => simp
  | some d =>
    simp only [List.mem_append, not_or]
    refine ⟨⟨?_, ?_⟩, ?_⟩ <;> (split <;> simp)

set_option maxRecDepth 40000 in
/-- Known-answer test: the SHA-1 implementation hashes the three bytes
`abc` to the standard digest. -/
theorem sha1Hex_abc :
    sha1Hex [97, 98, 99] = "a9993e364706816aba3e25717850c26c9cd0d89d" := by decide

/-! ## Claim theorems -/

/-- C1: the idempotence claim fails on the code.  For a removal descriptor
the first run returns exactly the userdel command, but re-running the same
descriptor against the updated snapshot (the user now gone) raises a
TypeError instead of returning the empty plan: line 84's guard only
catches `present and user is None`, so `present=False` with an absent user
reaches line 91 and subscripts `None`. -/
theorem user_removal_rerun_raises :
    user ⟨some [("bob", ⟨some "/home/bob", some "/bin/sh"⟩)], []⟩ "bob" false none none none
      = Except.ok [Cmd.userdel "bob"] ∧
    user ⟨some [], []⟩ "bob" false none none none
      = Except.error (PyErr.typeError "NoneType object has no attribute getitem") :=
  ⟨rfl, rfl⟩

/-- C2 counterexample: with `home` and `shell` unset (None) and an existing
user whose observed fields are set, the plan does contain modification
commands for the unset fields (`usermod -d None alice`), refuting the
claim that unset fields are never touched. -/
theorem user_unset_field_modified :
    user ⟨some [("alice", ⟨some "/home/alice", some "/bin/bash"⟩)], []⟩ "alice"
        true none none none
      = Except.ok [Cmd.usermodHome none "alice", Cmd.usermodShell none "alice",
          Cmd.mkdirp "None" (some "alice") (some "alice") none] ∧
    Cmd.usermodHome none "alice" ∈
      [Cmd.usermodHome none "alice", Cmd.usermodShell none "alice",
       Cmd.mkdirp "None" (some "alice") (some "alice") none] :=
  ⟨rfl, by decide⟩

/-- C2 amended: for present=True on an existing user, every field —
unset fields reading as the desired value None — is compared with the
observed value, and no modification command is emitted for a field whose
desired value equals the observed one. -/
theorem user_minimality_amended (facts : Facts) (name : String)
    (home shell : Option String) (public_keys : Option (List String))
    (u : URec) (cmds : List Cmd)
    (hu : alookup (facts.users.getD []) name = some u)
    (hok : user facts name true home shell public_keys = Except.ok cmds) :
    (u.home = home → ∀ h n, Cmd.usermodHome h n ∉ cmds) ∧
    (u.shell = shell → ∀ s n, Cmd.usermodShell s n ∉ cmds) := by
  cases public_keys with
  | some ks => simp [user, hu] at hok
  | none =>
    simp only [user, hu] at hok
    simp only [not_true_eq_false, false_and, if_false, true_and,
      reduceCtorEq, if_neg, Option.isSome_some] at hok
    injection hok with hok
    subst hok
    constructor
    · intro heq h n
      simp only [List.mem_append, not_or]
      refine ⟨⟨?_, ?_⟩, ?_⟩
      · simp [heq]
      · split <;> simp
      · exact directory_no_usermodHome _ _ _ _ _ _ _
    · intro heq s n
      simp only [List.mem_append, not_or]
      refine ⟨⟨?_, ?_⟩, ?_⟩
      · split <;> simp
      · simp [heq]
      · exact directory_no_usermodShell _ _ _ _ _ _ _

/-- C2 amended, witness: a converged user and home directory produce the
empty plan, in which no modification command appears. -/
theorem user_minimality_amended_witness :
    alookup [("erin", URec.mk (some "/home/erin") (some "/bin/sh"))] "erin"
        = some (URec.mk (some "/home/erin") (some "/bin/sh")) ∧
    ((URec.mk (some "/home/erin") (some "/bin/sh")).home = some "/home/erin" →
        ∀ h n, Cmd.usermodHome h n ∉ ([] : List Cmd)) ∧
    ((URec.mk (some "/home/erin") (some "/bin/sh")).shell = some "/bin/sh" →
        ∀ s n, Cmd.usermodShell s n ∉ ([] : List Cmd)) := by
  refine ⟨by decide, ?_⟩
  exact user_minimality_amended
    ⟨some [("erin", ⟨some "/home/erin", some "/bin/sh"⟩)],
     [("/home/erin", ⟨some "erin", some "erin", none⟩)]⟩
    "erin" (some "/home/erin") (some "/bin/sh") none
    (URec.mk (some "/home/erin") (some "/bin/sh")) [] (by decide) rfl

/-- C3: plan computation is not total.  With `present=False` and the named
user absent, line 91 subscripts `None` and raises TypeError; with
`public_keys` a non-empty list, line 120 calls the Python 2 builtin `file`
with invalid keyword arguments and raises TypeError. -/
theorem user_plan_computation_raises :
    user ⟨some [], []⟩ "ghost" false none none none
      = Except.error (PyErr.typeError "NoneType object has no attribute getitem") ∧
    user ⟨some [("eve", ⟨some "/home/eve", some "/bin/sh"⟩)], []⟩ "eve" true
        (some "/home/eve") (some "/bin/sh") (some ["ssh-rsa BBB"])
      = Except.error (PyErr.typeError "user is an invalid keyword argument for this function") :=
  ⟨rfl, rfl⟩

/-- C4: removal precedence — `present=False` with an existing record
returns exactly the userdel command, whatever the other fields hold. -/
theorem user_removal_precedence (facts : Facts) (name : String)
    (home shell : Option String) (public_keys : Option (List String)) (u : URec)
    (hu : alookup (facts.users.getD []) name = some u) :
    user facts name false home shell public_keys = Except.ok [Cmd.userdel name] := by
  simp [user, hu]

/-- C4 witness: removing an existing user with home, shell and keys all set
still yields only the userdel command. -/
theorem user_removal_precedence_witness :
    alookup [("bob", URec.mk (some "/home/bob") (some "/bin/sh"))] "bob"
        = some (URec.mk (some "/home/bob") (some "/bin/sh")) ∧
    user ⟨some [("bob", ⟨some "/home/bob", some "/bin/sh"⟩)], []⟩ "bob" false
        (some "/home/b") (some "/bin/zsh") (some ["ssh-rsa AAA"])
      = Except.ok [Cmd.userdel "bob"] :=
  ⟨by decide,
   user_removal_precedence ⟨some [("bob", ⟨some "/home/bob", some "/bin/sh"⟩)], []⟩
     "bob" (some "/home/b") (some "/bin/zsh") (some ["ssh-rsa AAA"])
     ⟨some "/home/bob", some "/bin/sh"⟩ (by decide)⟩

/-- C5: with `public_keys` set on an already-correct user the operation
raises TypeError at line 120 (the bare name `file` is the Python 2
builtin, not `files.file`), so the claimed `.ssh`/authorized_keys/append
plan is never returned. -/
theorem user_public_keys_raise_typeerror :
    user ⟨some [("carol", ⟨some "/home/carol", some "/bin/bash"⟩)],
          [("/home/carol", ⟨some "carol", some "carol", none⟩)]⟩
        "carol" true (some "/home/carol") (some "/bin/bash") (some ["ssh-rsa AAA"])
      = Except.error (PyErr.typeError "user is an invalid keyword argument for this function") :=
  rfl

/-- C6: when both home and shell are set and both diverge, the plan starts
with the home modification followed by the shell modification. -/
theorem user_home_before_shell (facts : Facts) (name : String) (h s : String)
    (public_keys : Option (List String)) (u : URec) (cmds : List Cmd)
    (hu : alookup (facts.users.getD []) name = some u)
    (hhome : u.home ≠ some h) (hshell : u.shell ≠ some s)
    (hok : user facts name true (some h) (some s) public_keys = Except.ok cmds) :
    ∃ rest, cmds = Cmd.usermodHome (some h) name :: Cmd.usermodShell (some s) name :: rest := by
  cases public_keys with
  | some ks => simp [user, hu] at hok
  | none =>
    simp [user, hu, hhome, hshell] at hok
    exact ⟨_, hok.symm⟩

/-- C6 witness: both fields divergent on a concrete snapshot. -/
theorem user_home_before_shell_witness :
    alookup [("dave", URec.mk (some "/home/old") (some "/bin/sh"))] "dave"
        = some (URec.mk (some "/home/old") (some "/bin/sh")) ∧
    (URec.mk (some "/home/old") (some "/bin/sh")).home ≠ some "/home/dave" ∧
    (URec.mk (some "/home/old") (some "/bin/sh")).shell ≠ some "/bin/bash" ∧
    ∃ rest,
      [Cmd.usermodHome (some "/home/dave") "dave",
       Cmd.usermodShell (some "/bin/bash") "dave",
       Cmd.mkdirp "/home/dave" (some "dave") (some "dave") none]
        = Cmd.usermodHome (some "/home/dave") "dave"
            :: Cmd.usermodShell (some "/bin/bash") "dave" :: rest :=
  ⟨by decide, by decide, by decide,
   user_home_before_shell ⟨some [("dave", ⟨some "/home/old", some "/bin/sh"⟩)], []⟩
     "dave" "/home/dave" "/bin/bash" none ⟨some "/home/old", some "/bin/sh"⟩
     [Cmd.usermodHome (some "/home/dave") "dave",
      Cmd.usermodShell (some "/bin/bash") "dave",
      Cmd.mkdirp "/home/dave" (some "dave") (some "dave") none]
     (by decide) (by decide) (by decide) rfl⟩

/-- C7: `shell` returns its input commands unchanged, consulting nothing. -/
theorem shell_is_identity (commands : List String) : shell commands = commands := rfl

/-- C8: the script plan is the upload commands, then the mark-executable
command for the temp path, then the invocation of the temp path, in that
order; the temp path is the stable hash-derived `scriptTempFile`. -/
theorem script_plan_shape (f : String) :
    (script f).take (files.put f (scriptTempFile f)).length
        = files.put f (scriptTempFile f) ∧
    (script f).drop (files.put f (scriptTempFile f)).length
        = ["chmod +x " ++ scriptTempFile f, scriptTempFile f] := by
  constructor
  · exact List.take_left _ _
  · exact List.drop_left _ _

set_option maxRecDepth 10000 in
/-- C9: `wait` returns exactly one command; that command contains the fixed
`sleep 5` retry interval, the netcat probe, the bash `/dev/tcp` raw-socket
fallback, and the `exit 1` taken at execution time when neither tool is
installed. -/
theorem wait_single_polling_command (port : Option Nat) :
    (wait port).length = 1 ∧
    ∀ c, c ∈ wait port →
      hasSub "sleep 5" c ∧ hasSub "while ! nc -q 1 localhost" c ∧
      hasSub "/dev/tcp/localhost/" c ∧ hasSub "exit 1" c := by
  refine ⟨rfl, ?_⟩
  intro c hc
  simp only [wait, List.mem_singleton] at hc
  subst hc
  refine ⟨?_, ?_, ?_, ?_⟩
  · exact hasSub_appendL _ _ (hasSub_appendL _ _ (hasSub_appendR _ _ (by decide)))
  · exact hasSub_appendL _ _ (hasSub_appendL _ _ (hasSub_appendL _ _
      (hasSub_appendL _ _ (by decide))))
  · exact hasSub_appendL _ _ (hasSub_appendL _ _ (hasSub_appendR _ _ (by decide)))
  · exact hasSub_appendR _ _ (by decide)

/-- C10: the remote temp path is `/tmp/` followed by the SHA-1 hex digest
of the filename bytes — the filename string is the only input `script`
takes, so the path is independent of the script file's contents — and it
is the last command of the plan (the invocation). -/
theorem script_temp_path_sha1_of_filename (f : String) :
    scriptTempFile f = "/tmp/" ++ sha1Hex (strBytes f) ∧
    (script f).getLast? = some (scriptTempFile f) :=
  ⟨rfl, rfl⟩
